import Mathlib

/-!
Verification of the crypto-tax-exporter transaction pipeline.

This file gives a shallow embedding of the repository's normalization,
classification, filtering, CSV-export and wallet-validation logic, and
proves (or refutes) the specification's claims about it.

Modelling conventions used throughout:
* JavaScript numbers are modelled by `ℚ` (the properties at issue only use
  sign tests, comparisons and exact arithmetic identities).
* Timestamps are modelled by their epoch-milliseconds value as `ℤ`;
  `new Date(t).toISOString()` is an order-isomorphic rendering of that value,
  so timestamp ordering is compared directly on `ℤ`, and the CSV layer
  renders the value with a decimal (order-isomorphic, digit-only) rendering.
* JavaScript `x || d` default-on-falsy is modelled by `orQ` / `orZ` / `orN` /
  `orS` (falsy = absent, `0`, or `""` respectively).
* `Math.random()` is modelled by an explicit oracle `rand : ℕ → ℕ → ℚ`
  giving the draw consumed at loop iteration `i`, position `k`; real
  executions draw from `[0, 1)`.
* `Number.prototype.toString(36)` fraction digits are modelled by an exact
  base-36 expansion of the rational draw.
-/

/-! ### JavaScript-style default helpers -/

/-- JS `x || d` for an optional numeric field: `undefined` and `0` are falsy. -/
def orQ (x : Option ℚ) (d : ℚ) : ℚ :=
  match x with
  | none => d
  | some v => if v = 0 then d else v

/-- JS `x || d` for an optional integer (epoch-millis) field. -/
def orZ (x : Option ℤ) (d : ℤ) : ℤ :=
  match x with
  | none => d
  | some v => if v = 0 then d else v

/-- JS `x || d` for an optional natural-number field. -/
def orN (x : Option ℕ) (d : ℕ) : ℕ :=
  match x with
  | none => d
  | some v => if v = 0 then d else v

/-- JS `x || d` for an optional string field: `undefined` and `""` are falsy. -/
def orS (x : Option String) (d : String) : String :=
  match x with
  | none => d
  | some v => if v = "" then d else v

/-- JS `s.slice(0, n)` on a string. -/
def sliceTake (s : String) (n : ℕ) : String := ⟨s.data.take n⟩

/-- `Math.floor` of a rational, clamped to `ℕ` (JS indices are non-negative
for in-range `Math.random()` draws). -/
def ratFloorNat (q : ℚ) : ℕ := (⌊q⌋).toNat

/-! ### Canonical record shapes (src/src/app/api/transactions/route.ts 3-33) -/

/-- Spot trade direction strings produced by the classifiers. -/
inductive Side where
  | BUY
  | SELL
  | TRANSFER
deriving DecidableEq, Repr

def sideStr : Side → String
  | .BUY => "BUY"
  | .SELL => "SELL"
  | .TRANSFER => "TRANSFER"

/-- Perp position direction (`'LONG' | 'SHORT'`). -/
inductive PerpSide where
  | LONG
  | SHORT
deriving DecidableEq, Repr

def perpSideStr : PerpSide → String
  | .LONG => "LONG"
  | .SHORT => "SHORT"

/-- `SpotTransaction` from the route handlers (timestamp as epoch millis). -/
structure SpotTransaction where
  timestamp : ℤ
  asset : String
  side : Side
  quantity : ℚ
  price : ℚ
  total : ℚ
  fees : ℚ
  hash : String
  chain : String
deriving DecidableEq, Repr

/-- `PerpTransaction` from the route handler; `exit_price`, `pnl` and
`liquidation` are the optional fields of the TypeScript interface. -/
structure PerpTransaction where
  timestamp : ℤ
  asset : String
  side : PerpSide
  quantity : ℚ
  entry_price : ℚ
  exit_price : Option ℚ
  pnl : Option ℚ
  fees : ℚ
  funding : ℚ
  exchange : String
  hash : String
  chain : String
  position_size : ℚ
  leverage : ℚ
  liquidation : Option Bool
deriving DecidableEq, Repr

/-- `type Transaction = SpotTransaction | PerpTransaction`. -/
inductive Transaction where
  | spot (t : SpotTransaction)
  | perp (t : PerpTransaction)
deriving DecidableEq, Repr

/-! ### Allium indexer adapter (src/unnamed/part_001) -/

/-- The fields of one Allium API result row that the transformer reads.
Optional fields model JSON fields that may be absent. -/
structure AlliumTx where
  block_timestamp : Option ℤ := none
  timestamp : Option ℤ := none
  token_symbol : Option String := none
  native_change : Option ℚ := none
  token_change_amount : Option ℚ := none
  quantity : Option ℚ := none
  native_transfer_amount : Option ℚ := none
  native_decimals : Option ℕ := none
  fee : Option ℚ := none
  tx_hash : Option String := none
  signature : Option String := none
deriving Repr

/-- `chainToNativeAsset` (part_001 lines 152-166). -/
def chainToNativeAsset (chain : String) : String :=
  let c := chain.toLower
  if c = "solana" then "SOL"
  else if c = "ethereum" then "ETH"
  else if c = "base" then "ETH"
  else if c = "arbitrum" then "ETH"
  else if c = "polygon" then "MATIC"
  else if c = "optimism" then "ETH"
  else if c = "bittensor" then "TAO"
  else if c = "polkadot" then "DOT"
  else if c = "osmosis" then "OSMO"
  else if c = "ronin" then "RON"
  else "UNKNOWN"

/-- The spot side classifier: the body of `determineSide` (part_001 lines
168-175) after the two delta extractions, as a function of the two deltas. -/
def determineSide (nativeChange tokenChange : ℚ) : Side :=
  if 0 < nativeChange ∧ tokenChange < 0 then .BUY
  else if nativeChange < 0 ∧ 0 < tokenChange then .SELL
  else if 0 < tokenChange then .BUY
  else .SELL

/-- `determineSide(tx)` (part_001 lines 168-175): extracts the deltas with
JS `|| 0` defaulting and classifies. -/
def determineSideTx (tx : AlliumTx) : Side :=
  determineSide (orQ tx.native_change 0) (orQ tx.token_change_amount 0)

/-- `calculatePrice` (part_001 lines 177-185):
`(|native_transfer_amount| / 10^native_decimals) / |token_change_amount|`
when the token amount is non-zero, else `0`. -/
def calculatePrice (tx : AlliumTx) : ℚ :=
  let nativeTotal := |orQ tx.native_transfer_amount 0|
  let tokenAmount := |orQ tx.token_change_amount 0|
  if 0 < tokenAmount then
    let nativeDecimals := orN tx.native_decimals 9
    (nativeTotal / 10 ^ nativeDecimals) / tokenAmount
  else 0

/-- The record built for one Allium row by `transformAlliumData`
(part_001 lines 123-132). -/
def alliumRecord (chain : String) (tx : AlliumTx) : SpotTransaction where
  timestamp := orZ tx.block_timestamp (orZ tx.timestamp 0)
  asset := orS tx.token_symbol (chainToNativeAsset chain)
  side := determineSideTx tx
  quantity := |orQ tx.token_change_amount (orQ tx.quantity 0)|
  price := calculatePrice tx
  total := |orQ tx.native_transfer_amount 0|
  fees := orQ tx.fee 0 / 1000000000
  hash := orS tx.tx_hash (orS tx.signature "")
  chain := chain

/-- `transformAlliumData` (part_001 lines 117-134): map every result row to
a record, keep the ones with a known asset and a non-empty hash.  The caller
passes the unwrapped `data[0].result` row list. -/
def transformAlliumData (results : List AlliumTx) (chain : String) : List SpotTransaction :=
  (results.map (alliumRecord chain)).filter
    (fun tx => tx.asset != "UNKNOWN" && tx.hash != "")

/-! ### Allium fetch control flow (src/unnamed/part_002 lines 56-98) -/

/-- The upstream HTTP response as seen by `fetchAlliumTransactions`:
the parts of the network result that steer its control flow. -/
structure AlliumHttpResponse where
  ok : Bool
  status : ℕ
deriving DecidableEq, Repr

/-- Which code path of the adapter produced the returned transaction list. -/
inductive FetchOutcome where
  | upstreamData
  | syntheticFallback
deriving DecidableEq, Repr

/-- The `try` block of part_002's `fetchAlliumTransactions` (lines 60-92):
on `429`/`5xx` it returns mock data, on any other non-ok status it throws,
on an ok response it returns the transformed upstream data. -/
def fetchAlliumResponseTry (resp : AlliumHttpResponse) : Except String FetchOutcome :=
  if !resp.ok then
    if resp.status == 429 || 500 ≤ resp.status then
      .ok .syntheticFallback
    else
      .error ("Allium API error: " ++ toString resp.status)
  else
    .ok .upstreamData

/-- `fetchAlliumTransactions` (part_002 lines 56-98): the `try` block wrapped
in the surrounding `catch`, which maps every thrown error to
`generateMockTransactions` (lines 93-97). -/
def fetchAlliumTransactions (resp : AlliumHttpResponse) : FetchOutcome :=
  match fetchAlliumResponseTry resp with
  | .ok o => o
  | .error _ => .syntheticFallback

/-! ### Sorting by timestamp descending

The route handlers end with
`transactions.sort((a, b) => new Date(b.timestamp).getTime() - new Date(a.timestamp).getTime())`;
this is modelled by an insertion sort on the epoch-millis key (any sorting
algorithm agrees with the comparator's descending order). -/

def insertDescBy {α : Type} (key : α → ℤ) (x : α) : List α → List α
  | [] => [x]
  | y :: ys => if key y ≤ key x then x :: y :: ys else y :: insertDescBy key x ys

def sortByKeyDesc {α : Type} (key : α → ℤ) : List α → List α
  | [] => []
  | x :: xs => insertDescBy key x (sortByKeyDesc key xs)

/-- The ordering requirement of the spec: adjacent records are in
non-increasing timestamp order (most recent first). -/
def TimestampDesc (txs : List SpotTransaction) : Prop :=
  txs.Chain' (fun a b => b.timestamp ≤ a.timestamp)

/-- The same ordering requirement for perp record sequences. -/
def TimestampDescPerp (txs : List PerpTransaction) : Prop :=
  txs.Chain' (fun a b => b.timestamp ≤ a.timestamp)

/-! ### Solana RPC adapter (route.ts lines 271-338) -/

/-- One parsed transaction detail, as read by the Solana adapter. -/
structure SolanaParsedTx where
  blockTime : Option ℤ
  fee : ℚ
  preBalance : ℚ
  postBalance : ℚ
deriving Repr

/-- One signature together with the result of its detail fetch; `none`
models a failed/caught detail request or a null RPC result (skipped). -/
structure SolanaSigResult where
  signature : String
  tx : Option SolanaParsedTx
deriving Repr

/-- The record pushed for one signature by `fetchSolanaTransactions`
(route.ts lines 289-333); `none` when the item is skipped. -/
def solanaRecord (now : ℤ) (sig : SolanaSigResult) : Option SpotTransaction :=
  match sig.tx with
  | none => none
  | some t =>
    let timestamp := match t.blockTime with
      | some bt => bt * 1000
      | none => now
    let solChange := t.postBalance - t.preBalance
    if solChange ≠ 0 then
      some { timestamp := timestamp
             asset := "SOL"
             side := if 0 < solChange then .BUY else .SELL
             quantity := |solChange| / 1000000000
             price := 100
             total := |solChange| / 1000000000 * 100
             fees := t.fee / 1000000000
             hash := sig.signature
             chain := "solana" }
    else none

/-- `fetchSolanaTransactions` (route.ts lines 271-338): take the first 10
signatures, keep the parsed non-zero-delta records, sort descending. -/
def fetchSolanaTransactions (sigs : List SolanaSigResult) (now : ℤ) : List SpotTransaction :=
  sortByKeyDesc (·.timestamp) ((sigs.take 10).filterMap (solanaRecord now))

/-! ### EVM RPC adapter (route.ts lines 340-411) -/

/-- `CHAIN_NATIVE_ASSET` (route.ts lines 54-63) with the adapter's
`|| 'ETH'` fallback (route.ts line 397). -/
def chainNativeAssetRoute (chain : String) : String :=
  if chain = "solana" then "SOL"
  else if chain = "ethereum" then "ETH"
  else if chain = "base" then "ETH"
  else if chain = "arbitrum" then "ETH"
  else if chain = "polygon" then "MATIC"
  else if chain = "optimism" then "ETH"
  else if chain = "bittensor" then "TAO"
  else if chain = "polkadot" then "DOT"
  else "ETH"

/-- One transfer log together with its fetched block timestamp (epoch
seconds; `none` when the block lookup returned no result), as read by the
EVM adapter. `value` is the already-parsed `parseInt(log.data, 16)`. -/
structure EVMLog where
  topic2 : Option String
  value : ℚ
  transactionHash : String
  blockTimestamp : Option ℤ
deriving Repr

/-- The record pushed for one log by `fetchEVMTransactions`
(route.ts lines 395-405). -/
def evmRecord (wallet chain : String) (now : ℤ) (log : EVMLog) : SpotTransaction where
  timestamp :=
    match log.blockTimestamp with
    | some bt => bt * 1000
    | none => now
  asset := chainNativeAssetRoute chain
  side :=
    match log.topic2 with
    | some t => if t.toLower = wallet.toLower then .SELL else .BUY
    | none => .BUY
  quantity := log.value / 1000000000000000000
  price := 0
  total := 0
  fees := 0
  hash := log.transactionHash
  chain := chain

/-- `fetchEVMTransactions` (route.ts lines 340-411): take the first 20
logs, map each to a record, sort descending. -/
def fetchEVMTransactions (wallet chain : String) (logs : List EVMLog) (now : ℤ) :
    List SpotTransaction :=
  sortByKeyDesc (·.timestamp) ((logs.take 20).map (evmRecord wallet chain now))

/-! ### Base-36 fraction rendering for mock hashes

`Math.random().toString(36).substring(2, 2+n)` takes `n` base-36 digits of
the fractional expansion of the draw. -/

def base36Char (n : ℕ) : Char :=
  if n < 10 then Char.ofNat (48 + n) else Char.ofNat (87 + n % 36)

def fracDigitsB36 : ℚ → ℕ → List Char
  | _, 0 => []
  | q, n + 1 =>
    let d := ratFloorNat (q * 36) % 36
    base36Char d :: fracDigitsB36 (q * 36 - ⌊q * 36⌋) n

/-- `r.toString(36).substring(2, 2+n)` for a fractional draw `r`. -/
def jsRandB36 (q : ℚ) (n : ℕ) : String := ⟨fracDigitsB36 q n⟩

/-! ### Synthetic spot generator (route.ts lines 457-495) -/

/-- The `assets` table of `generateMockTransactions` (route.ts 457-469),
with its fallback to the Solana list. -/
def mockSpotAssets (chain : String) : List String :=
  let c := chain.toLower
  if c = "solana" then ["SOL", "USDC", "BONK", "JTO", "PYTH"]
  else if c = "ethereum" then ["ETH", "USDC", "USDT", "LINK", "UNI"]
  else if c = "base" then ["ETH", "USDC", "cbBTC", "AERO"]
  else if c = "arbitrum" then ["ETH", "USDC", "ARB", "RDNT"]
  else if c = "polygon" then ["MATIC", "USDC", "LINK", "GHST"]
  else if c = "optimism" then ["ETH", "USDC", "OP", "SNX"]
  else if c = "bittensor" then ["TAO", "sTAO", "FIN"]
  else if c = "polkadot" then ["DOT", "USDC", "GLMR"]
  else if c = "osmosis" then ["OSMO", "ATOM", "USDC"]
  else if c = "ronin" then ["RON", "AXS", "SLP"]
  else if c = "hyperliquid" then ["HYPE", "USDC"]
  else ["SOL", "USDC", "BONK", "JTO", "PYTH"]

/-- One iteration of the spot branch of `generateMockTransactions`
(route.ts lines 474-491). -/
def mockSpotRecord (wallet chain : String) (rand : ℕ → ℕ → ℚ) (now : ℤ) (i : ℕ) :
    SpotTransaction :=
  let side := if 1/2 < rand i 0 then Side.BUY else Side.SELL
  let chainAssets := mockSpotAssets chain
  let asset := chainAssets.getD (ratFloorNat (rand i 1 * chainAssets.length)) "SOL"
  let quantity := rand i 2 * 5
  let price := rand i 3 * 100 + 10
  { timestamp := now - i * 86400000 * 2
    asset := asset
    side := side
    quantity := quantity
    price := price
    total := quantity * price
    fees := rand i 4 * 2
    hash := sliceTake wallet 8 ++ jsRandB36 (rand i 5) 8
    chain := chain }

/-- The spot branch of `generateMockTransactions` (route.ts 457-495):
15 generated records, sorted by timestamp descending. -/
def generateMockSpotTransactions (wallet chain : String) (rand : ℕ → ℕ → ℚ) (now : ℤ) :
    List SpotTransaction :=
  sortByKeyDesc (·.timestamp) ((List.range 15).map (mockSpotRecord wallet chain rand now))

/-! ### Decimal renderers used by the CSV layer -/

/-- Digits of a natural number (fuel-structured base-10 expansion;
`fuel = n+1` always suffices). -/
def natDigitsAux : ℕ → ℕ → List Char
  | 0, _ => []
  | fuel + 1, n =>
    if n < 10 then [base36Char n]
    else natDigitsAux fuel (n / 10) ++ [base36Char (n % 10)]

/-- Decimal rendering of a natural number. -/
def natStr (n : ℕ) : String := ⟨natDigitsAux (n + 1) n⟩

/-- Decimal rendering of an integer (models the JS string form of an
epoch-millis value or an integral number). -/
def intStr (z : ℤ) : String :=
  if z < 0 then "-" ++ natStr z.natAbs else natStr z.natAbs

/-- The CSV rendering of a timestamp value (order-isomorphic stand-in for
`toISOString`). -/
def isoM (t : ℤ) : String := intStr t

/-- Rendering of a rational number field (stand-in for JS
`Number.prototype.toString`: sign, digits, and a denominator part for
non-integral values; contains no comma and no newline). -/
def ratStr (q : ℚ) : String :=
  (if q.num < 0 then "-" else "") ++ natStr q.num.natAbs ++
    (if q.den = 1 then "" else "/" ++ natStr q.den)

/-- `x?.toString() || ''` for an optional numeric field. -/
def optRatStr : Option ℚ → String
  | none => ""
  | some q => ratStr q

/-- `tx.liquidation ? 'YES' : 'NO'` (truthy only on `some true`). -/
def liqStr (l : Option Bool) : String :=
  if l = some true then "YES" else "NO"

/-! ### Hyperliquid adapter (route.ts lines 145-229) -/

/-- One entry of `assetPositions` as read by the adapter. -/
structure HLOpenPosition where
  asset : String
  positionSize : ℚ
  entryPrice : ℚ
  leverage : ℚ
  liquidationPrice : ℚ
deriving Repr

/-- One entry of `closedPositions` as read by the adapter
(`closeTimestamp` in epoch seconds). -/
structure HLClosedPosition where
  asset : String
  entryPrice : ℚ
  exitPrice : ℚ
  size : ℚ
  pnl : ℚ
  fees : ℚ
  funding : ℚ
  closeTimestamp : ℤ
deriving Repr

/-- The record pushed for one open position (route.ts lines 184-202). -/
def hyperliquidOpenRecord (wallet : String) (now : ℤ) (pos : HLOpenPosition) :
    PerpTransaction where
  timestamp := now
  asset := pos.asset
  side := if 0 ≤ pos.positionSize then .LONG else .SHORT
  quantity := |pos.positionSize|
  entry_price := pos.entryPrice
  exit_price := none
  pnl := none
  fees := 0
  funding := 0
  exchange := "Hyperliquid"
  hash := sliceTake wallet 16
  chain := "ethereum"
  position_size := pos.positionSize
  leverage := pos.leverage
  liquidation := some (decide (0 < pos.liquidationPrice))

/-- The record pushed for one closed position (route.ts lines 205-222). -/
def hyperliquidClosedRecord (wallet : String) (pos : HLClosedPosition) :
    PerpTransaction where
  timestamp := pos.closeTimestamp * 1000
  asset := pos.asset
  side := if 0 ≤ pos.size then .LONG else .SHORT
  quantity := |pos.size|
  entry_price := pos.entryPrice
  exit_price := some pos.exitPrice
  pnl := some pos.pnl
  fees := pos.fees
  funding := pos.funding
  exchange := "Hyperliquid"
  hash := sliceTake wallet 16 ++ "-" ++ intStr pos.closeTimestamp
  chain := "ethereum"
  position_size := pos.size
  leverage := 0
  liquidation := none

/-- `fetchHyperliquidTransactions` (route.ts lines 145-229), success path:
open positions first, then closed positions, in upstream order (no sort). -/
def fetchHyperliquidTransactions (wallet : String) (now : ℤ)
    (opens : List HLOpenPosition) (closeds : List HLClosedPosition) :
    List PerpTransaction :=
  opens.map (hyperliquidOpenRecord wallet now) ++ closeds.map (hyperliquidClosedRecord wallet)

/-! ### Per-exchange mock perp adapter (route.ts lines 231-269) -/

/-- `SUPPORTED_PERP_PAIRS` (route.ts lines 65-70); `none` for an unknown id. -/
def supportedPerpPairs (exchangeId : String) : Option (List String) :=
  if exchangeId = "hyperliquid" then
    some ["BTC", "ETH", "SOL", "ADA", "XRP", "DOGE", "LTC", "LINK", "AVAX",
          "MATIC", "ARB", "INJ", "BNB", "MKR", "SNX"]
  else if exchangeId = "perpetual" then some ["BTC", "ETH", "SOL", "LINK", "ARB", "INJ"]
  else if exchangeId = "gmx" then some ["BTC", "ETH", "SOL", "LINK", "AVAX", "UNI"]
  else if exchangeId = "Synthetix" then some ["BTC", "ETH", "SOL", "LINK", "ARB", "SNX", "INJ"]
  else none

/-- One iteration of `fetchMockPerpTransactions` (route.ts lines 239-265). -/
def mockPerpRecord (wallet cfgName cfgChain : String) (assets : List String)
    (rand : ℕ → ℕ → ℚ) (now : ℤ) (i : ℕ) : PerpTransaction :=
  let side := if 1/2 < rand i 0 then PerpSide.LONG else PerpSide.SHORT
  let asset := assets.getD (ratFloorNat (rand i 1 * assets.length)) "BTC"
  let quantity := rand i 2 * 2
  let entryPrice := 50000 + rand i 3 * 50000
  let leverage : ℚ := (ratFloorNat (rand i 4 * 20) : ℚ) + 1
  let pnl := (rand i 5 - 2/5) * quantity * 1000
  { timestamp := now - i * 86400000 * 3
    asset := asset
    side := side
    quantity := quantity
    entry_price := entryPrice
    exit_price := if i < 5 then some (entryPrice * (1 + (rand i 8 - 1/2) * (1/10))) else none
    pnl := if i < 5 then some pnl else none
    fees := rand i 6 * 10
    funding := rand i 7 * 5
    exchange := cfgName
    hash := sliceTake wallet 8 ++ "-perp-" ++ jsRandB36 (rand i 9) 6
    chain := cfgChain
    position_size := if side = .LONG then quantity else -quantity
    leverage := leverage
    liquidation := some (decide (rand i 10 < 1/20)) }

/-- `fetchMockPerpTransactions` (route.ts lines 231-269): ten generated
records, first five closed, in generation order (no sort). -/
def fetchMockPerpTransactions (wallet cfgName cfgChain exchangeId : String)
    (rand : ℕ → ℕ → ℚ) (now : ℤ) : List PerpTransaction :=
  let assets := (supportedPerpPairs exchangeId).getD ["BTC", "ETH"]
  (List.range 10).map (mockPerpRecord wallet cfgName cfgChain assets rand now)

/-! ### Synthetic generator, perp branch and dispatch (route.ts lines 413-496) -/

/-- `exchange.charAt(0).toUpperCase() + exchange.slice(1)`. -/
def capitalizeFirst (s : String) : String :=
  match s.data with
  | [] => ""
  | c :: cs => ⟨c.toUpper :: cs⟩

/-- One iteration of the perp branch of `generateMockTransactions`
(route.ts lines 419-450). -/
def mockPerpGenRecord (wallet : String) (rand : ℕ → ℕ → ℚ) (now : ℤ) (i : ℕ) :
    PerpTransaction :=
  let perpExchanges := ["hyperliquid", "perpetual", "gmx", "Synthetix"]
  let perpAssets := ["BTC", "ETH", "SOL", "LINK", "ADA", "XRP", "DOGE", "ARB", "INJ", "AVAX"]
  let exchange := perpExchanges.getD (ratFloorNat (rand i 0 * perpExchanges.length)) "hyperliquid"
  let side := if 1/2 < rand i 1 then PerpSide.LONG else PerpSide.SHORT
  let asset := perpAssets.getD (ratFloorNat (rand i 2 * perpAssets.length)) "BTC"
  let quantity := rand i 3 * 2
  let entryPrice :=
    if asset = "BTC" then 95000 + rand i 4 * 10000
    else if asset = "ETH" then 3500 + rand i 4 * 500
    else rand i 4 * 200 + 10
  let leverage : ℚ := (ratFloorNat (rand i 5 * 20) : ℚ) + 1
  let pnl := (rand i 6 - 2/5) * quantity * entryPrice * leverage * (1/10)
  let closed := 2/5 < rand i 9
  { timestamp := now - i * 86400000 * (if closed then 1 else 3)
    asset := asset
    side := side
    quantity := quantity
    entry_price := entryPrice
    exit_price := if closed then some (entryPrice * (1 + (rand i 10 - 1/2) * (15/100))) else none
    pnl := if closed then some pnl else none
    fees := rand i 7 * 15
    funding := rand i 8 * 8
    exchange := capitalizeFirst exchange
    hash := sliceTake wallet 8 ++ "-" ++ jsRandB36 (rand i 11) 8
    chain := "ethereum"
    position_size := if side = .LONG then quantity else -quantity
    leverage := leverage
    liquidation := some (decide (rand i 12 < 3/100)) }

/-- The perp branch of `generateMockTransactions` (route.ts lines 414-455):
12 generated records, sorted by timestamp descending. -/
def generateMockPerpTransactions (wallet : String) (rand : ℕ → ℕ → ℚ) (now : ℤ) :
    List PerpTransaction :=
  sortByKeyDesc (·.timestamp) ((List.range 12).map (mockPerpGenRecord wallet rand now))

/-- `generateMockTransactions` (route.ts lines 413-496): dispatch on the
requested record type. -/
def generateMockTransactions (wallet chain ty : String) (rand : ℕ → ℕ → ℚ) (now : ℤ) :
    List Transaction :=
  if ty = "perp" then (generateMockPerpTransactions wallet rand now).map .perp
  else (generateMockSpotTransactions wallet chain rand now).map .spot

/-! ### Client-side filters (src/src/app/page.tsx lines 379-409) -/

def txAsset : Transaction → String
  | .spot t => t.asset
  | .perp t => t.asset

def txSide : Transaction → String
  | .spot t => sideStr t.side
  | .perp t => perpSideStr t.side

/-- The asset filter step of `filteredTransactions` (page.tsx 391-393):
exact match on `asset`, `"all"` is the identity. -/
def filterByAsset (txs : List Transaction) (assetFilter : String) : List Transaction :=
  if assetFilter ≠ "all" then txs.filter (fun tx => txAsset tx == assetFilter) else txs

/-- The side filter step of `filteredTransactions` (page.tsx 395-397):
exact match on `side`, `"all"` is the identity. -/
def filterBySide (txs : List Transaction) (sideFilter : String) : List Transaction :=
  if sideFilter ≠ "all" then txs.filter (fun tx => txSide tx == sideFilter) else txs

/-! ### Wallet validation (page.tsx lines 341-349 and src/unnamed/part_005 lines 224-233) -/

def isBase58Char (c : Char) : Bool :=
  ('1' ≤ c && c ≤ '9') || ('A' ≤ c && c ≤ 'H') || ('J' ≤ c && c ≤ 'N') ||
  ('P' ≤ c && c ≤ 'Z') || ('a' ≤ c && c ≤ 'k') || ('m' ≤ c && c ≤ 'z')

def isHexChar (c : Char) : Bool :=
  c.isDigit || ('a' ≤ c && c ≤ 'f') || ('A' ≤ c && c ≤ 'F')

def isAlphanumChar (c : Char) : Bool :=
  c.isDigit || ('a' ≤ c && c ≤ 'z') || ('A' ≤ c && c ≤ 'Z')

def isPolkadotChar (c : Char) : Bool :=
  ('1' ≤ c && c ≤ '9') || ('a' ≤ c && c ≤ 'z') || ('A' ≤ c && c ≤ 'H') ||
  ('J' ≤ c && c ≤ 'N') || ('P' ≤ c && c ≤ 'Z')

/-- `/^[1-9A-HJ-NP-Za-km-z]{32,44}$/`. -/
def solanaAddrOk (addr : String) : Bool :=
  decide (32 ≤ addr.length) && decide (addr.length ≤ 44) && addr.data.all isBase58Char

/-- `/^0x[a-fA-F0-9]{40}$/`. -/
def ethAddrOk (addr : String) : Bool :=
  match addr.data with
  | '0' :: 'x' :: rest => rest.length == 40 && rest.all isHexChar
  | _ => false

/-- `/^5[a-zA-Z0-9]{47}$/`. -/
def bittensorAddrOk (addr : String) : Bool :=
  match addr.data with
  | '5' :: rest => rest.length == 47 && rest.all isAlphanumChar
  | _ => false

/-- `/^1[a-zA-HJ-NP-Z1-9]{33}$/`. -/
def polkadotAddrOk (addr : String) : Bool :=
  match addr.data with
  | '1' :: rest => rest.length == 33 && rest.all isPolkadotChar
  | _ => false

/-- `validateWallet` (page.tsx lines 341-349). -/
def validateWallet (addr chainId : String) : Bool :=
  if chainId = "solana" then solanaAddrOk addr
  else if chainId = "ethereum" then ethAddrOk addr
  else if chainId = "bittensor" then bittensorAddrOk addr
  else if chainId = "polkadot" then polkadotAddrOk addr
  else decide (32 ≤ addr.length)

def isJsWhitespace (c : Char) : Bool :=
  c == ' ' || c == '\t' || c == '\n' || c == '\r' ||
  c == Char.ofNat 11 || c == Char.ofNat 12

/-- JS `String.prototype.trim`. -/
def jsTrim (s : String) : String :=
  ⟨((s.data.dropWhile isJsWhitespace).reverse.dropWhile isJsWhitespace).reverse⟩

/-- `validateWallet` of the part_005 page variant (lines 224-233): identical
switch, preceded by `if (!addr.trim()) return false`. -/
def validateWalletP5 (addr chainId : String) : Bool :=
  if jsTrim addr == "" then false
  else if chainId = "solana" then solanaAddrOk addr
  else if chainId = "ethereum" then ethAddrOk addr
  else if chainId = "bittensor" then bittensorAddrOk addr
  else if chainId = "polkadot" then polkadotAddrOk addr
  else decide (32 ≤ addr.length)

/-! ### CSV serializer (page.tsx lines 445-494, part_005 lines 312-339)

`Array.prototype.join` with a one-character separator and the inverse split
used by the round-trip property, modelled over the character lists that
underlie the strings. -/

def joinSep (sep : Char) : List (List Char) → List Char
  | [] => []
  | [g] => g
  | g :: h :: t => g ++ sep :: joinSep sep (h :: t)

def splitSep (sep : Char) : List Char → List (List Char)
  | [] => [[]]
  | c :: cs =>
    match splitSep sep cs with
    | [] => [[]]
    | g :: gs => if c = sep then [] :: g :: gs else (c :: g) :: gs

/-- `cells.join(sep)` for a one-character separator. -/
def strJoin (sep : Char) (cells : List String) : String :=
  ⟨joinSep sep (cells.map String.data)⟩

/-- `s.split(sep)` for a one-character separator. -/
def strSplit (sep : Char) (s : String) : List String :=
  (splitSep sep s.data).map String.mk

/-- A cell value that needs no CSV escaping. -/
def CleanCell (s : String) : Prop := ',' ∉ s.data ∧ '\n' ∉ s.data

/-- The string fields of a perp record contain no comma and no newline
(the round-trip claim's hypothesis; the remaining fields are rendered from
numbers, sides and booleans and are always clean). -/
def CleanStringFields (tx : PerpTransaction) : Prop :=
  CleanCell tx.asset ∧ CleanCell tx.exchange ∧ CleanCell tx.chain ∧ CleanCell tx.hash

/-- The perp header array of `exportToCSV` (page.tsx line 450). -/
def perpHeaders : List String :=
  ["timestamp", "asset", "side", "quantity", "entry_price", "exit_price", "pnl",
   "fees", "funding", "exchange", "leverage", "liquidation", "chain", "hash"]

/-- The row built for one perp record by `exportToCSV` (page.tsx lines 451-466). -/
def perpRow (tx : PerpTransaction) : List String :=
  [isoM tx.timestamp, tx.asset, perpSideStr tx.side, ratStr tx.quantity,
   ratStr tx.entry_price, optRatStr tx.exit_price, optRatStr tx.pnl,
   ratStr tx.fees, ratStr tx.funding, tx.exchange, ratStr tx.leverage,
   liqStr tx.liquidation, tx.chain, tx.hash]

/-- `[headers.join(','), ...rows.map(r => r.join(','))].join('\n')`
(page.tsx line 468). -/
def perpCsv (txs : List PerpTransaction) : String :=
  strJoin '\n' (strJoin ',' perpHeaders :: txs.map (fun tx => strJoin ',' (perpRow tx)))

/-- The perp branch of `exportToCSV` (page.tsx lines 445-475): the function
returns without producing any CSV when the filtered list is empty
(line 446), otherwise it builds and downloads the CSV text. -/
def exportToCSVPerp (txs : List PerpTransaction) : Option String :=
  if txs.length = 0 then none else some (perpCsv txs)

/-! ### Concrete example inputs used by counterexamples and witnesses -/

/-- An Allium row: 1 native unit (10^9 base units, 9 decimals) against 10
tokens. -/
def exAlliumTx : AlliumTx where
  block_timestamp := some 1700000000000
  token_symbol := some "BONK"
  native_change := some 1000000000
  token_change_amount := some (-10)
  native_transfer_amount := some 1000000000
  native_decimals := some 9
  fee := some 5000
  tx_hash := some "sig1"

/-- Two valid Allium rows whose upstream order is oldest-first. -/
def alliumTxEarly : AlliumTx where
  block_timestamp := some 1000
  token_symbol := some "BONK"
  token_change_amount := some 2
  tx_hash := some "sigEarly"

def alliumTxLate : AlliumTx where
  block_timestamp := some 2000
  token_symbol := some "BONK"
  token_change_amount := some 3
  tx_hash := some "sigLate"

/-- A sample open Hyperliquid position. -/
def samplePerpOpen : HLOpenPosition where
  asset := "BTC"
  positionSize := 2
  entryPrice := 50000
  leverage := 5
  liquidationPrice := 0

/-- A sample closed Hyperliquid position. -/
def samplePerpClosed : HLClosedPosition where
  asset := "ETH"
  entryPrice := 3000
  exitPrice := 3100
  size := -4
  pnl := -400
  fees := 12
  funding := 3
  closeTimestamp := 1700000000

/-- A 32-character wallet address consisting only of spaces. -/
def blank32 : String := ⟨List.replicate 32 ' '⟩

/-- Two concrete `Math.random` oracles that differ in every draw. -/
def zeroRand : ℕ → ℕ → ℚ := fun _ _ => 0

def threeQuarterRand : ℕ → ℕ → ℚ := fun _ _ => 3/4

/-! ### Helper lemmas: insertion sort yields descending chains -/

theorem insertDescBy_headOpt {α : Type} (key : α → ℤ) (x : α) :
    ∀ l : List α, (insertDescBy key x l).head? = some x ∨ (insertDescBy key x l).head? = l.head?
  | [] => Or.inl rfl
  | y :: ys => by
    unfold insertDescBy
    split
    · exact Or.inl rfl
    · exact Or.inr rfl

theorem chain'_insertDescBy {α : Type} (key : α → ℤ) (x : α) :
    ∀ l : List α, l.Chain' (fun a b => key b ≤ key a) →
      (insertDescBy key x l).Chain' (fun a b => key b ≤ key a) := by
  intro l
  induction l with
  | nil => intro _; simp [insertDescBy]
  | cons y ys ih =>
    intro h
    rw [List.chain'_cons'] at h
    unfold insertDescBy
    split
    case isTrue hle =>
      rw [List.chain'_cons]
      exact ⟨hle, List.chain'_cons'.mpr h⟩
    case isFalse hgt =>
      rw [List.chain'_cons']
      refine ⟨?_, ih h.2⟩
      intro z hz
      rcases insertDescBy_headOpt key x ys with hh | hh
      · rw [hh] at hz
        cases hz
        exact le_of_lt (lt_of_not_ge hgt)
      · rw [hh] at hz
        exact h.1 z hz

theorem chain'_sortByKeyDesc {α : Type} (key : α → ℤ) :
    ∀ l : List α, (sortByKeyDesc key l).Chain' (fun a b => key b ≤ key a)
  | [] => List.chain'_nil
  | x :: xs => chain'_insertDescBy key x _ (chain'_sortByKeyDesc key xs)

theorem orQ_eq_of_ne (x : Option ℚ) (d : ℚ) (h : orQ x 0 ≠ 0) : orQ x d = orQ x 0 := by
  cases x with
  | none => simp [orQ] at h
  | some v =>
    by_cases hv : v = 0
    · simp [orQ, hv] at h
    · simp [orQ, hv]

/-! ### C1 — spot side classification -/

/-- C1 counterexample: the claim says a zero token delta classifies as
TRANSFER, but `determineSide` classifies `(0, 0)` as SELL — the classifier
never returns TRANSFER. -/
theorem determineSide_zero_is_sell_cex :
    determineSide 0 0 = Side.SELL ∧ Side.SELL ≠ Side.TRANSFER := by
  decide

/-- C1 (amended): `determineSide` always returns BUY or SELL (total, never
null, and never TRANSFER); opposing signs classify as the claim states, and
otherwise the token delta alone decides with `tokenDelta > 0 → BUY` and
`tokenDelta ≤ 0 → SELL` (a zero token delta yields SELL, not TRANSFER). -/
theorem determineSide_total_and_rule (n t : ℚ) :
    (determineSide n t = Side.BUY ∨ determineSide n t = Side.SELL) ∧
    ((0 < n ∧ t < 0) → determineSide n t = Side.BUY) ∧
    ((n < 0 ∧ 0 < t) → determineSide n t = Side.SELL) ∧
    (¬(0 < n ∧ t < 0) → ¬(n < 0 ∧ 0 < t) → 0 < t → determineSide n t = Side.BUY) ∧
    (¬(0 < n ∧ t < 0) → ¬(n < 0 ∧ 0 < t) → t ≤ 0 → determineSide n t = Side.SELL) := by
  refine ⟨?_, ?_, ?_, ?_, ?_⟩
  · unfold determineSide
    split_ifs <;> simp
  · intro h
    unfold determineSide
    rw [if_pos h]
  · intro h
    have hn : ¬(0 < n ∧ t < 0) := by
      rintro ⟨_, hb⟩
      linarith [h.2]
    unfold determineSide
    rw [if_neg hn, if_pos h]
  · intro hc hd ht
    unfold determineSide
    rw [if_neg hc, if_neg hd, if_pos ht]
  · intro hc hd ht
    unfold determineSide
    rw [if_neg hc, if_neg hd, if_neg (not_lt.mpr ht)]

/-- C1 witness: a clean native-up/token-down pair classifies as BUY. -/
theorem determineSide_rule_witness : determineSide 1 (-1) = Side.BUY :=
  (determineSide_total_and_rule 1 (-1)).2.1 ⟨by norm_num, by norm_num⟩

/-! ### C2 — total versus quantity times price -/

/-- C2 counterexample: a real Allium row (1 native unit ≍ 10^9 base units,
9 native decimals, 10 tokens) survives the transformer's filter and has
`price > 0`, `quantity > 0`, yet `|total - quantity*price| = 999999999`:
`total` is the raw native amount in base units while `quantity*price` is in
whole native units, so the round-trip invariant fails for every tolerance
below 999999999. -/
theorem allium_total_invariant_cex :
    transformAlliumData [exAlliumTx] "solana" = [alliumRecord "solana" exAlliumTx] ∧
    0 < (alliumRecord "solana" exAlliumTx).price ∧
    0 < (alliumRecord "solana" exAlliumTx).quantity ∧
    |(alliumRecord "solana" exAlliumTx).total -
      (alliumRecord "solana" exAlliumTx).quantity * (alliumRecord "solana" exAlliumTx).price| =
      999999999 := by
  refine ⟨rfl, ?_⟩
  simp [alliumRecord, calculatePrice, exAlliumTx, orQ, orN, orZ, orS, determineSideTx,
    determineSide]
  norm_num

/-- C2 (amended): for every record produced by the Allium transformer with a
positive derived price, `total = quantity * price * 10^decimals` exactly —
the total is the raw native transfer amount in smallest base units, so the
claimed `total ≈ quantity * price` holds only when `decimals = 0`. -/
theorem alliumRecord_total_factor (chain : String) (tx : AlliumTx)
    (h : 0 < (alliumRecord chain tx).price) :
    (alliumRecord chain tx).total =
      (alliumRecord chain tx).quantity * (alliumRecord chain tx).price *
        10 ^ orN tx.native_decimals 9 := by
  simp only [alliumRecord, calculatePrice] at h ⊢
  by_cases hta : 0 < |orQ tx.token_change_amount 0|
  · rw [if_pos hta] at h ⊢
    have hne : orQ tx.token_change_amount 0 ≠ 0 := by
      intro h0
      rw [h0] at hta
      simp at hta
    have hq : orQ tx.token_change_amount (orQ tx.quantity 0) = orQ tx.token_change_amount 0 :=
      orQ_eq_of_ne _ _ hne
    rw [hq]
    have habs : |orQ tx.token_change_amount 0| ≠ 0 := ne_of_gt hta
    have hp : (10 : ℚ) ^ orN tx.native_decimals 9 ≠ 0 := by positivity
    field_simp
    ring
  · rw [if_neg hta] at h
    exact absurd h (lt_irrefl 0)

/-- C2 witness: the amended identity evaluated on the concrete row. -/
theorem alliumRecord_total_factor_witness :
    (alliumRecord "solana" exAlliumTx).total =
      (alliumRecord "solana" exAlliumTx).quantity * (alliumRecord "solana" exAlliumTx).price *
        10 ^ orN exAlliumTx.native_decimals 9 :=
  alliumRecord_total_factor "solana" exAlliumTx (by
    simp [alliumRecord, calculatePrice, exAlliumTx, orQ, orN])

/-! ### C3 — non-retryable upstream errors are masked by mock data -/

/-- C3: a 401 Unauthorized response — a non-retryable batch-level error —
makes part_002's `fetchAlliumTransactions` return the synthetic fallback:
the inner `throw` for a non-429/non-5xx status is swallowed by the
function's own catch-all, which returns `generateMockTransactions` instead
of propagating a hard error as the claim requires. -/
theorem fetchAllium_unauthorized_masked :
    fetchAlliumTransactions { ok := false, status := 401 } = FetchOutcome.syntheticFallback :=
  rfl

/-! ### C4 — ordering of adapter output -/

/-- C4 counterexample: the Allium adapter hands its records to the caller in
upstream order without sorting, so an upstream batch in oldest-first order
produces output that is not timestamp-descending. -/
theorem transformAllium_unsorted_cex :
    ¬ TimestampDesc (transformAlliumData [alliumTxEarly, alliumTxLate] "solana") := by
  have e : transformAlliumData [alliumTxEarly, alliumTxLate] "solana" =
      [alliumRecord "solana" alliumTxEarly, alliumRecord "solana" alliumTxLate] := rfl
  rw [TimestampDesc, e, List.chain'_pair]
  intro h
  have e1 : (alliumRecord "solana" alliumTxLate).timestamp = 2000 := rfl
  have e2 : (alliumRecord "solana" alliumTxEarly).timestamp = 1000 := rfl
  rw [e1, e2] at h
  norm_num at h

/-- C4 (amended): every adapter that ends in an explicit descending sort —
the Solana RPC adapter, the EVM RPC adapter, and the synthetic generators
(spot and perp branches) — returns its records sorted by timestamp
descending, for every upstream input, wallet, clock and random oracle; the
Allium transformer and the Hyperliquid adapter instead keep upstream
order, which need not be descending. -/
theorem sort_ending_adapters_desc :
    (∀ sigs now, TimestampDesc (fetchSolanaTransactions sigs now)) ∧
    (∀ wallet chain logs now, TimestampDesc (fetchEVMTransactions wallet chain logs now)) ∧
    (∀ wallet chain rand now, TimestampDesc (generateMockSpotTransactions wallet chain rand now)) ∧
    (∀ wallet rand now, TimestampDescPerp (generateMockPerpTransactions wallet rand now)) := by
  refine ⟨?_, ?_, ?_, ?_⟩
  · intro sigs now
    exact chain'_sortByKeyDesc _ _
  · intro wallet chain logs now
    exact chain'_sortByKeyDesc _ _
  · intro wallet chain rand now
    exact chain'_sortByKeyDesc _ _
  · intro wallet rand now
    exact chain'_sortByKeyDesc _ _

/-! ### Helper lemmas: split/join round trip -/

theorem splitSep_ne_nil (sep : Char) : ∀ l, splitSep sep l ≠ []
  | [] => by simp [splitSep]
  | c :: cs => by
    simp only [splitSep]
    cases hcs : splitSep sep cs with
    | nil => simp
    | cons g gs => by_cases hc : c = sep <;> simp [hc]

theorem splitSep_no_sep (sep : Char) : ∀ g, sep ∉ g → splitSep sep g = [g]
  | [], _ => rfl
  | c :: cs, h => by
    have hc : c ≠ sep := fun e => h (by simp [e])
    have hcs : sep ∉ cs := fun m => h (by simp [m])
    unfold splitSep
    rw [splitSep_no_sep sep cs hcs]
    simp [hc]

theorem splitSep_append_sep (sep : Char) (g r : List Char) (h : sep ∉ g) :
    splitSep sep (g ++ sep :: r) = g :: splitSep sep r := by
  induction g with
  | nil =>
    simp only [List.nil_append, splitSep]
    cases hh : splitSep sep r with
    | nil => exact absurd hh (splitSep_ne_nil sep r)
    | cons x xs => simp
  | cons c cs ih =>
    have hc : c ≠ sep := fun e => h (by simp [e])
    have hcs : sep ∉ cs := fun m => h (by simp [m])
    simp only [List.cons_append, splitSep, List.append_eq]
    rw [ih hcs]
    simp [hc]

theorem splitSep_joinSep (sep : Char) :
    ∀ cells, cells ≠ [] → (∀ g ∈ cells, sep ∉ g) →
      splitSep sep (joinSep sep cells) = cells
  | [], h, _ => absurd rfl h
  | [g], _, hg => by
    unfold joinSep
    exact splitSep_no_sep sep g (hg g (by simp))
  | g :: h2 :: t, _, hg => by
    show splitSep sep (g ++ sep :: joinSep sep (h2 :: t)) = g :: (h2 :: t)
    rw [splitSep_append_sep sep g _ (hg g (by simp))]
    rw [splitSep_joinSep sep (h2 :: t) (by simp) (fun x hx => hg x (by simp [hx]))]

theorem mem_joinSep (sep : Char) :
    ∀ cells (c : Char), c ∈ joinSep sep cells → c = sep ∨ ∃ g ∈ cells, c ∈ g
  | [], c, h => by simp [joinSep] at h
  | [g], c, h => by
    unfold joinSep at h
    exact Or.inr ⟨g, by simp, h⟩
  | g :: h2 :: t, c, h => by
    rw [show joinSep sep (g :: h2 :: t) = g ++ sep :: joinSep sep (h2 :: t) from rfl] at h
    rw [List.mem_append, List.mem_cons] at h
    rcases h with h | h | h
    · exact Or.inr ⟨g, by simp, h⟩
    · exact Or.inl h
    · rcases mem_joinSep sep (h2 :: t) c h with h' | ⟨g', hg', hc'⟩
      · exact Or.inl h'
      · exact Or.inr ⟨g', by simp [hg'], hc'⟩

theorem strSplit_strJoin (sep : Char) (cells : List String) (h1 : cells ≠ [])
    (h2 : ∀ s ∈ cells, sep ∉ s.data) :
    strSplit sep (strJoin sep cells) = cells := by
  unfold strSplit strJoin
  rw [show (⟨joinSep sep (cells.map String.data)⟩ : String).data =
        joinSep sep (cells.map String.data) from rfl]
  rw [splitSep_joinSep sep _ (by simpa using h1)
    (by
      intro g hg
      rcases List.mem_map.1 hg with ⟨s, hs, rfl⟩
      exact h2 s hs)]
  rw [List.map_map]
  exact List.map_id _

/-! ### Helper lemmas: rendered cells contain no comma and no newline -/

theorem data_append (a b : String) : (a ++ b).data = a.data ++ b.data := by
  cases a
  cases b
  rfl

theorem cleanCell_append {a b : String} (ha : CleanCell a) (hb : CleanCell b) :
    CleanCell (a ++ b) := by
  constructor <;> rw [data_append, List.mem_append]
  · rintro (m | m)
    · exact ha.1 m
    · exact hb.1 m
  · rintro (m | m)
    · exact ha.2 m
    · exact hb.2 m

theorem base36Char_digit_clean : ∀ d : ℕ, d < 10 → base36Char d ≠ ',' ∧ base36Char d ≠ '\n' := by
  decide

theorem natDigitsAux_clean (fuel : ℕ) :
    ∀ n : ℕ, ∀ c ∈ natDigitsAux fuel n, c ≠ ',' ∧ c ≠ '\n' := by
  induction fuel with
  | zero =>
    intro n c hc
    simp [natDigitsAux] at hc
  | succ f ih =>
    intro n c hc
    unfold natDigitsAux at hc
    split at hc
    case isTrue h =>
      simp at hc
      subst hc
      exact base36Char_digit_clean n h
    case isFalse h =>
      rw [List.mem_append] at hc
      rcases hc with hc | hc
      · exact ih _ c hc
      · simp at hc
        subst hc
        exact base36Char_digit_clean _ (Nat.mod_lt _ (by norm_num))

theorem cleanCell_natStr (n : ℕ) : CleanCell (natStr n) := by
  refine ⟨fun m => ?_, fun m => ?_⟩
  · exact (natDigitsAux_clean _ _ _ m).1 rfl
  · exact (natDigitsAux_clean _ _ _ m).2 rfl

theorem cleanCell_intStr (z : ℤ) : CleanCell (intStr z) := by
  unfold intStr
  split
  · exact cleanCell_append ⟨by decide, by decide⟩ (cleanCell_natStr _)
  · exact cleanCell_natStr _

theorem cleanCell_isoM (t : ℤ) : CleanCell (isoM t) := cleanCell_intStr t

theorem cleanCell_ratStr (q : ℚ) : CleanCell (ratStr q) := by
  unfold ratStr
  refine cleanCell_append (cleanCell_append ?_ (cleanCell_natStr _)) ?_
  · split <;> exact ⟨by decide, by decide⟩
  · split
    · exact ⟨by decide, by decide⟩
    · exact cleanCell_append ⟨by decide, by decide⟩ (cleanCell_natStr _)

theorem cleanCell_optRatStr (o : Option ℚ) : CleanCell (optRatStr o) := by
  cases o with
  | none => exact ⟨by decide, by decide⟩
  | some q => exact cleanCell_ratStr q

theorem cleanCell_liqStr (l : Option Bool) : CleanCell (liqStr l) := by
  unfold liqStr
  split <;> exact ⟨by decide, by decide⟩

theorem cleanCell_perpSideStr (s : PerpSide) : CleanCell (perpSideStr s) := by
  cases s <;> exact ⟨by decide, by decide⟩

theorem perpRow_clean (tx : PerpTransaction) (h : CleanStringFields tx) :
    ∀ s ∈ perpRow tx, CleanCell s := by
  obtain ⟨h1, h2, h3, h4⟩ := h
  intro s hs
  simp only [perpRow, List.mem_cons, List.not_mem_nil, or_false] at hs
  rcases hs with rfl | rfl | rfl | rfl | rfl | rfl | rfl | rfl | rfl | rfl | rfl | rfl | rfl | rfl
  · exact cleanCell_isoM _
  · exact h1
  · exact cleanCell_perpSideStr _
  · exact cleanCell_ratStr _
  · exact cleanCell_ratStr _
  · exact cleanCell_optRatStr _
  · exact cleanCell_optRatStr _
  · exact cleanCell_ratStr _
  · exact cleanCell_ratStr _
  · exact h2
  · exact cleanCell_ratStr _
  · exact cleanCell_liqStr _
  · exact h3
  · exact h4

theorem rowLine_no_newline (tx : PerpTransaction) (h : CleanStringFields tx) :
    '\n' ∉ (strJoin ',' (perpRow tx)).data := by
  intro m
  unfold strJoin at m
  rcases mem_joinSep ',' _ _ m with h' | ⟨g, hg, hcg⟩
  · exact absurd h' (by decide)
  · rcases List.mem_map.1 hg with ⟨s, hs, rfl⟩
    exact (perpRow_clean tx h s hs).2 hcg

/-! ### C5 — serializing an empty perp sequence -/

/-- C5 counterexample: on an empty sequence the exporter returns without
producing any CSV — there is no header-only line, contrary to the claim. -/
theorem exportToCSVPerp_empty_cex : exportToCSVPerp [] = none := rfl

/-- Splitting a one-character-separated join whose first cell is free of the
separator recovers that first cell as the head. -/
theorem strSplit_strJoin_head (sep : Char) (a : String) (rest : List String)
    (ha : sep ∉ a.data) :
    (strSplit sep (strJoin sep (a :: rest))).head? = some a := by
  cases rest with
  | nil =>
    unfold strJoin strSplit
    simp only [List.map_cons, List.map_nil]
    rw [show joinSep sep [a.data] = a.data from rfl]
    rw [show (⟨a.data⟩ : String).data = a.data from rfl]
    rw [splitSep_no_sep sep a.data ha]
    rfl
  | cons b bs =>
    unfold strJoin strSplit
    simp only [List.map_cons]
    rw [show joinSep sep (a.data :: b.data :: bs.map String.data) =
        a.data ++ sep :: joinSep sep (b.data :: bs.map String.data) from rfl]
    rw [splitSep_append_sep sep _ _ ha]
    rfl

/-- C5 (amended): the exporter produces no output for an empty sequence
(early return); for every non-empty perp sequence it produces a CSV whose
first line is exactly the fixed perp header. -/
theorem exportToCSVPerp_header (txs : List PerpTransaction) (h : txs ≠ []) :
    (exportToCSVPerp txs).isSome = true ∧
    (strSplit '\n' ((exportToCSVPerp txs).getD "")).head? =
      some "timestamp,asset,side,quantity,entry_price,exit_price,pnl,fees,funding,exchange,leverage,liquidation,chain,hash" := by
  obtain ⟨t, ts, rfl⟩ := List.exists_cons_of_ne_nil h
  have he : exportToCSVPerp (t :: ts) = some (perpCsv (t :: ts)) := by
    unfold exportToCSVPerp
    rw [if_neg (by simp)]
  refine ⟨by rw [he]; rfl, ?_⟩
  rw [he]
  simp only [Option.getD_some]
  unfold perpCsv
  rw [strSplit_strJoin_head '\n' _ _ (by decide)]
  rfl

/-- C5 witness: header line of the export of a concrete one-record sequence. -/
theorem exportToCSVPerp_header_witness :
    (exportToCSVPerp [hyperliquidClosedRecord "wallet12345678901234" samplePerpClosed]).isSome
        = true ∧
    (strSplit '\n'
        ((exportToCSVPerp [hyperliquidClosedRecord "wallet12345678901234" samplePerpClosed]).getD
          "")).head? =
      some "timestamp,asset,side,quantity,entry_price,exit_price,pnl,fees,funding,exchange,leverage,liquidation,chain,hash" :=
  exportToCSVPerp_header [hyperliquidClosedRecord "wallet12345678901234" samplePerpClosed]
    (by simp)

/-! ### C6 — CSV round-trip -/

/-- C6: for every non-empty perp sequence whose string fields contain no
comma and no newline, splitting the CSV on newlines, dropping the header
and splitting each line on commas recovers exactly the serialized field
values of the input records, row by row and column by column, in the fixed
column order (absent `exit_price`/`pnl` as the empty string, `liquidation`
as `YES`/`NO`). -/
theorem perp_csv_roundtrip (txs : List PerpTransaction) (h1 : txs ≠ [])
    (h2 : ∀ tx ∈ txs, CleanStringFields tx) :
    ((strSplit '\n' ((exportToCSVPerp txs).getD "")).drop 1).map (strSplit ',') =
      txs.map perpRow := by
  have he : exportToCSVPerp txs = some (perpCsv txs) := by
    unfold exportToCSVPerp
    rw [if_neg (fun hlen => h1 (List.length_eq_zero.mp hlen))]
  rw [he]
  simp only [Option.getD_some]
  unfold perpCsv
  rw [strSplit_strJoin '\n' _ (by simp) (by
    intro s hs
    rw [List.mem_cons] at hs
    rcases hs with rfl | hs
    · exact by decide
    · rcases List.mem_map.1 hs with ⟨tx, htx, rfl⟩
      exact rowLine_no_newline tx (h2 tx htx))]
  rw [show (strJoin ',' perpHeaders :: txs.map fun tx => strJoin ',' (perpRow tx)).drop 1 =
      txs.map fun tx => strJoin ',' (perpRow tx) from rfl]
  rw [List.map_map]
  apply List.map_congr_left
  intro tx htx
  show strSplit ',' (strJoin ',' (perpRow tx)) = perpRow tx
  exact strSplit_strJoin ',' (perpRow tx) (by simp [perpRow])
    (fun s hs => (perpRow_clean tx (h2 tx htx) s hs).1)

/-- C6 witness: the round trip on a concrete one-record sequence. -/
theorem perp_csv_roundtrip_witness :
    ((strSplit '\n' ((exportToCSVPerp
        [hyperliquidClosedRecord "wallet12345678901234" samplePerpClosed]).getD "")).drop 1).map
      (strSplit ',') =
      [hyperliquidClosedRecord "wallet12345678901234" samplePerpClosed].map perpRow :=
  perp_csv_roundtrip _ (by simp) (by
    intro tx htx
    rw [List.mem_singleton] at htx
    subst htx
    exact ⟨⟨by decide, by decide⟩, ⟨by decide, by decide⟩, ⟨by decide, by decide⟩,
      ⟨by decide, by decide⟩⟩)

/-! ### Helper lemmas: sorting preserves membership -/

theorem mem_insertDescBy {α : Type} (key : α → ℤ) (x a : α) :
    ∀ l, a ∈ insertDescBy key x l ↔ a = x ∨ a ∈ l
  | [] => by simp [insertDescBy]
  | y :: ys => by
    unfold insertDescBy
    split
    · simp [List.mem_cons]
      try tauto
    · rw [List.mem_cons, mem_insertDescBy key x a ys, List.mem_cons]
      tauto

theorem mem_sortByKeyDesc {α : Type} (key : α → ℤ) (a : α) :
    ∀ l, a ∈ sortByKeyDesc key l ↔ a ∈ l
  | [] => Iff.rfl
  | x :: xs => by
    unfold sortByKeyDesc
    rw [mem_insertDescBy, mem_sortByKeyDesc key a xs, List.mem_cons]

/-! ### C7 — open/closed exclusivity of perp records -/

/-- C7: every perp record produced by the Hyperliquid adapter, the
per-exchange mock adapter, or the synthetic perp generator has
`exit_price` present exactly when `pnl` is present (fully open or fully
closed, never partially). -/
theorem perp_open_closed_exclusive :
    (∀ wallet now opens closeds,
      ∀ r ∈ fetchHyperliquidTransactions wallet now opens closeds,
        r.exit_price.isSome = r.pnl.isSome) ∧
    (∀ wallet cfgName cfgChain exchangeId rand now,
      ∀ r ∈ fetchMockPerpTransactions wallet cfgName cfgChain exchangeId rand now,
        r.exit_price.isSome = r.pnl.isSome) ∧
    (∀ wallet rand now,
      ∀ r ∈ generateMockPerpTransactions wallet rand now,
        r.exit_price.isSome = r.pnl.isSome) := by
  refine ⟨?_, ?_, ?_⟩
  · intro wallet now opens closeds r hr
    rw [fetchHyperliquidTransactions, List.mem_append] at hr
    rcases hr with hr | hr <;> rcases List.mem_map.1 hr with ⟨p, _, rfl⟩ <;> rfl
  · intro wallet cfgName cfgChain exchangeId rand now r hr
    unfold fetchMockPerpTransactions at hr
    rcases List.mem_map.1 hr with ⟨i, _, rfl⟩
    by_cases hi : i < 5 <;> simp [mockPerpRecord, hi]
  · intro wallet rand now r hr
    unfold generateMockPerpTransactions at hr
    rw [mem_sortByKeyDesc] at hr
    rcases List.mem_map.1 hr with ⟨i, _, rfl⟩
    by_cases hc : 2/5 < rand i 9 <;> simp [mockPerpGenRecord, hc]

/-- C7 witness: the exclusivity equality on a concrete open position's
record, obtained from the Hyperliquid adapter. -/
theorem perp_open_closed_exclusive_witness :
    (hyperliquidOpenRecord "w" 0 samplePerpOpen).exit_price.isSome =
      (hyperliquidOpenRecord "w" 0 samplePerpOpen).pnl.isSome :=
  perp_open_closed_exclusive.1 "w" 0 [samplePerpOpen] [] _
    (by simp [fetchHyperliquidTransactions])

/-! ### C8 — synthetic adapter determinism -/

/-- C8 counterexample: two invocations of the synthetic generator for the
same `(accountId, sourceId, recordType)` but with different `Math.random`
draw sequences return different record sequences — the generator is
randomized, not deterministically seeded by the account. -/
theorem generateMock_randomized_cex :
    generateMockTransactions "wallet123" "solana" "spot" zeroRand 0 ≠
      generateMockTransactions "wallet123" "solana" "spot" threeQuarterRand 0 := by
  intro h
  unfold generateMockTransactions at h
  rw [if_neg (by decide)] at h
  have hinj : Function.Injective Transaction.spot := fun a b hab => by
    injection hab
  have h' : generateMockSpotTransactions "wallet123" "solana" zeroRand 0 =
      generateMockSpotTransactions "wallet123" "solana" threeQuarterRand 0 :=
    List.map_injective_iff.mpr hinj h
  have hmem : mockSpotRecord "wallet123" "solana" zeroRand 0 0 ∈
      generateMockSpotTransactions "wallet123" "solana" zeroRand 0 := by
    unfold generateMockSpotTransactions
    rw [mem_sortByKeyDesc]
    exact List.mem_map.2 ⟨0, by simp, rfl⟩
  rw [h'] at hmem
  unfold generateMockSpotTransactions at hmem
  rw [mem_sortByKeyDesc] at hmem
  rcases List.mem_map.1 hmem with ⟨i, _, heq⟩
  have hs := congrArg SpotTransaction.side heq
  simp only [mockSpotRecord, zeroRand, threeQuarterRand] at hs
  rw [if_pos (by norm_num), if_neg (by norm_num)] at hs
  exact Side.noConfusion hs

/-- C8 (amended): the synthetic generator is deterministic relative to its
environment — for a fixed clock value, two invocations with the same
`(accountId, sourceId, recordType)` that consume the same random draws
return identical record sequences. -/
theorem generateMock_deterministic (wallet chain ty : String) (r1 r2 : ℕ → ℕ → ℚ) (now : ℤ)
    (h : ∀ i k, r1 i k = r2 i k) :
    generateMockTransactions wallet chain ty r1 now =
      generateMockTransactions wallet chain ty r2 now := by
  have : r1 = r2 := funext fun i => funext fun k => h i k
  rw [this]

/-- C8 witness: determinism instantiated at a concrete account and oracle. -/
theorem generateMock_deterministic_witness :
    generateMockTransactions "wallet123" "solana" "spot" zeroRand 0 =
      generateMockTransactions "wallet123" "solana" "spot" zeroRand 0 :=
  generateMock_deterministic "wallet123" "solana" "spot" zeroRand zeroRand 0
    (fun _ _ => rfl)

/-! ### C9 — asset and side filters commute -/

/-- C9: the asset filter and the side filter commute on every record
sequence, for every asset selector and side selector (including the
`"all"` identity selectors). -/
theorem filterAsset_filterSide_comm (xs : List Transaction) (a s : String) :
    filterBySide (filterByAsset xs a) s = filterByAsset (filterBySide xs s) a := by
  unfold filterByAsset filterBySide
  by_cases ha : a = "all" <;> by_cases hs : s = "all" <;> simp [ha, hs]
  congr 1
  funext x
  exact Bool.and_comm _ _

/-! ### C10 — wallet validation for chains without a format rule -/

/-- C10 counterexample: the part_005 variant of `validateWallet` rejects a
32-character all-whitespace address on a default-branch chain, although its
length is at least 32 — so acceptance there is not equivalent to the length
check alone. -/
theorem validateWalletP5_blank_cex :
    validateWalletP5 blank32 "base" = false ∧ blank32.length = 32 := by
  decide

/-- C10 (amended): for every chain outside
`{solana, ethereum, bittensor, polkadot}`, the page's `validateWallet`
accepts an address exactly when its length is at least 32; the part_005
variant additionally requires the address not to be all-whitespace. -/
theorem validateWallet_default_rule (addr chainId : String)
    (h : chainId ∉ (["solana", "ethereum", "bittensor", "polkadot"] : List String)) :
    validateWallet addr chainId = decide (32 ≤ addr.length) ∧
    validateWalletP5 addr chainId = (!(jsTrim addr == "") && decide (32 ≤ addr.length)) := by
  simp only [List.mem_cons, List.not_mem_nil, or_false, not_or] at h
  obtain ⟨h1, h2, h3, h4⟩ := h
  constructor
  · unfold validateWallet
    rw [if_neg h1, if_neg h2, if_neg h3, if_neg h4]
  · unfold validateWalletP5
    by_cases ht : jsTrim addr == ""
    · simp [ht]
    · rw [if_neg ht, if_neg h1, if_neg h2, if_neg h3, if_neg h4]
      have hb : (jsTrim addr == "") = false := by
        cases hh : (jsTrim addr == "") with
        | false => rfl
        | true => exact absurd hh ht
      rw [hb]
      rfl

/-- C10 witness: the default length-only rule on a concrete 32-character
address for the `base` chain. -/
theorem validateWallet_default_rule_witness :
    validateWallet "abcdefghabcdefghabcdefghabcdefgh" "base" =
      decide (32 ≤ ("abcdefghabcdefghabcdefghabcdefgh" : String).length) ∧
    validateWalletP5 "abcdefghabcdefghabcdefghabcdefgh" "base" =
      (!(jsTrim "abcdefghabcdefghabcdefghabcdefgh" == "") &&
        decide (32 ≤ ("abcdefghabcdefghabcdefghabcdefgh" : String).length)) :=
  validateWallet_default_rule "abcdefghabcdefghabcdefghabcdefgh" "base" (by decide)
